import Mathlib

/-!
Shallow embedding of the tanbo-adviser ESP32 sensor-unit firmware
(measure → CSV append → deep sleep), together with proofs of the
specified properties.  Floating-point sensor values are modelled as
rationals, with an explicit not-a-number constructor for the BME280
channel because C comparisons against NaN are always false.  Strings
are modelled as lists of characters, and the SD-card CSV file as an
optional list of lines (`none` = the file does not exist).
-/

namespace Tanbo

/-- Interval constant `INTERVAL_NORMAL` (seconds), from the source. -/
def INTERVAL_NORMAL : ℤ := 1800

/-- Interval constant `INTERVAL_HIGH_RISK` (seconds), from the source. -/
def INTERVAL_HIGH_RISK : ℤ := 600

/-- Interval constant `INTERVAL_NIGHT` (seconds), from the source. -/
def INTERVAL_NIGHT : ℤ := 3600

/-- Rice-blast risk band lower bound `BLAST_TEMP_MIN`. -/
def BLAST_TEMP_MIN : ℚ := 20

/-- Rice-blast risk band upper bound `BLAST_TEMP_MAX`. -/
def BLAST_TEMP_MAX : ℚ := 28

/-- Rice-blast risk humidity threshold `BLAST_HUMIDITY`. -/
def BLAST_HUMIDITY : ℚ := 85

/-- The DallasTemperature library's disconnected-probe return value. -/
def DEVICE_DISCONNECTED_C : ℚ := -127

/-- A C `float` value: either an ordinary (rational) value or NaN. -/
inductive FVal where
  | nan : FVal
  | val : ℚ → FVal
deriving DecidableEq

/-- C `>=` on floats: false whenever an operand is NaN. -/
def fge : FVal → FVal → Bool
  | .val x, .val y => decide (y ≤ x)
  | _, _ => false

/-- C `<=` on floats: false whenever an operand is NaN. -/
def fle : FVal → FVal → Bool
  | .val x, .val y => decide (x ≤ y)
  | _, _ => false

/-- C `>` on floats: false whenever an operand is NaN. -/
def fgt : FVal → FVal → Bool
  | .val x, .val y => decide (y < x)
  | _, _ => false

/-- Division of a possibly-NaN float by a nonzero constant. -/
def fdiv : FVal → ℚ → FVal
  | .val x, d => .val (x / d)
  | .nan, _ => .nan

/-- The decimal digit character for `d < 10`. -/
def digitCh : Nat → Char
  | 0 => '0' | 1 => '1' | 2 => '2' | 3 => '3' | 4 => '4'
  | 5 => '5' | 6 => '6' | 7 => '7' | 8 => '8' | _ => '9'

/-- Is `c` a decimal digit character? -/
def isDig (c : Char) : Bool := decide (48 ≤ c.toNat) && decide (c.toNat ≤ 57)

/-- Decimal rendering of a natural number, most significant digit first. -/
def natToChars (n : Nat) : List Char :=
  if h : n < 10 then [digitCh n]
  else natToChars (n / 10) ++ [digitCh (n % 10)]
decreasing_by exact Nat.div_lt_self (by omega) (by omega)

/-- Accumulating decimal parse of a digit string. -/
def charsToNatAux (acc : Nat) : List Char → Nat
  | [] => acc
  | c :: cs => charsToNatAux (acc * 10 + (c.toNat - 48)) cs

/-- Parse a nonempty all-digit string; `none` otherwise. -/
def parseDigits (cs : List Char) : Option Nat :=
  if cs = [] then none
  else if cs.all isDig then some (charsToNatAux 0 cs) else none

/-- Split a character list at every occurrence of `sep` (fields may be empty). -/
def splitOnChar (sep : Char) : List Char → List (List Char)
  | [] => [[]]
  | c :: cs =>
    if c = sep then [] :: splitOnChar sep cs
    else
      match splitOnChar sep cs with
      | [] => [[c]]
      | g :: gs => (c :: g) :: gs

/-- The integer `round(10*x)` that `printf("%.1f", x)` renders. -/
def fmtScaled (x : ℚ) : ℤ := round (10 * x)

/-- `printf("%.1f", x)`: sign, integer part, '.', one fraction digit. -/
def fmtF1 (x : ℚ) : List Char :=
  (if fmtScaled x < 0 then ['-'] else []) ++
    (natToChars ((fmtScaled x).natAbs / 10) ++
      '.' :: natToChars ((fmtScaled x).natAbs % 10))

/-- `printf("%.1f", x)` on a possibly-NaN float (glibc prints `nan`). -/
def fmtF1V : FVal → List Char
  | .nan => ['n', 'a', 'n']
  | .val x => fmtF1 x

/-- The value that `%.1f` rendering preserves: `x` rounded to 1 decimal. -/
def roundTo1 (x : ℚ) : ℚ := ((fmtScaled x : ℤ) : ℚ) / 10

/-- Parse an unsigned fixed-point numeral `digits.digits`. -/
def parseF1Pos (cs : List Char) : Option ℚ :=
  match splitOnChar '.' cs with
  | [ip, fp] =>
    match parseDigits ip, parseDigits fp with
    | some i, some f => some ((i : ℚ) + (f : ℚ) / 10 ^ fp.length)
    | _, _ => none
  | _ => none

/-- Parse a possibly-negative fixed-point numeral. -/
def parseF1 : List Char → Option ℚ
  | [] => none
  | c :: rest =>
    if c = '-' then (parseF1Pos rest).map (fun q => -q)
    else parseF1Pos (c :: rest)

/-- A broken-down local time (`struct tm`), fields as produced by `strftime`. -/
structure Tm where
  year : Nat
  month : Nat
  day : Nat
  hour : Nat
  minute : Nat
  sec : Nat
deriving DecidableEq

/-- Zero-padded two-digit rendering used by `%m %d %H %M %S`. -/
def pad2 (n : Nat) : List Char := if n < 10 then '0' :: natToChars n else natToChars n

/-- The fixed `+09:00` offset suffix of the timestamp format. -/
def tsSuffix : List Char := ['+', '0', '9', ':', '0', '0']

/-- `strftime("%Y-%m-%dT%H:%M:%S+09:00", t)`. -/
def fmtTimestamp (t : Tm) : List Char :=
  natToChars t.year ++ '-' ::
    (pad2 t.month ++ '-' ::
      (pad2 t.day ++ 'T' ::
        (pad2 t.hour ++ ':' ::
          (pad2 t.minute ++ ':' :: (pad2 t.sec ++ tsSuffix)))))

/-- The fixed fallback timestamp `1970-01-01T00:00:00+09:00`. -/
def fallbackTimestamp : List Char :=
  ['1', '9', '7', '0', '-', '0', '1', '-', '0', '1', 'T', '0', '0', ':',
   '0', '0', ':', '0', '0', '+', '0', '9', ':', '0', '0']

/-- `getTimestamp()`: strftime output when the clock is valid, else the fallback. -/
def getTimestamp : Option Tm → List Char
  | some t => fmtTimestamp t
  | none => fallbackTimestamp

/-- The header line `timestamp,air_temp,humidity,pressure,water_temp,water_level`. -/
def headerChars : List Char :=
  ['t', 'i', 'm', 'e', 's', 't', 'a', 'm', 'p', ',',
   'a', 'i', 'r', '_', 't', 'e', 'm', 'p', ',',
   'h', 'u', 'm', 'i', 'd', 'i', 't', 'y', ',',
   'p', 'r', 'e', 's', 's', 'u', 'r', 'e', ',',
   'w', 'a', 't', 'e', 'r', '_', 't', 'e', 'm', 'p', ',',
   'w', 'a', 't', 'e', 'r', '_', 'l', 'e', 'v', 'e', 'l']

/-- The CSV file: `none` when `/data.csv` does not exist, else its lines. -/
abbrev Store := List (List Char)

/-- The five global sensor variables set by `readSensors()`. -/
structure SensorVals where
  airTemp : FVal
  humidity : FVal
  pressure : FVal
  waterTemp : ℚ
  waterLevel : ℚ
deriving DecidableEq

/-- `adcToWaterLevel`: linear calibration of the raw ADC count, clamped to [0, 20] cm. -/
def adcToWaterLevel (rawAdc : ℤ) : ℚ :=
  let voltage : ℚ := (rawAdc : ℚ) * (33 / 10) / 4095
  let level : ℚ := (voltage - 1 / 2) * 20 / (33 / 10 - 1 / 2)
  let level2 : ℚ := if level < 0 then 0 else level
  if level2 > 20 then 20 else level2

/-- One cycle's external inputs: hardware and environment state at boot. -/
structure Env where
  sdOk : Bool
  store : Option Store
  headerOpenOk : Bool
  appendOpenOk : Bool
  time : Option Tm
  bmeTemp : FVal
  bmeHum : FVal
  bmePressRaw : FVal
  dsTempRaw : ℚ
  rawAdc : ℤ

/-- `readSensors()`: BME280 channels, DS18B20 with the −999 sentinel on
disconnect, and the calibrated water level. -/
def readSensors (e : Env) : SensorVals :=
  { airTemp := e.bmeTemp
    humidity := e.bmeHum
    pressure := fdiv e.bmePressRaw 100
    waterTemp := if e.dsTempRaw = DEVICE_DISCONNECTED_C then -999 else e.dsTempRaw
    waterLevel := adcToWaterLevel e.rawAdc }

/-- The CSV data line `%s,%.1f,%.1f,%.1f,%.1f,%.1f` written by `writeCSV()`. -/
def dataLine (timestamp : List Char) (s : SensorVals) : List Char :=
  timestamp ++ ',' ::
    (fmtF1V s.airTemp ++ ',' ::
      (fmtF1V s.humidity ++ ',' ::
        (fmtF1V s.pressure ++ ',' ::
          (fmtF1 s.waterTemp ++ ',' :: fmtF1 s.waterLevel))))

/-- The header-creation block of `setup()`: if `/data.csv` does not exist,
open it for writing and, if the open succeeded, write the header line. -/
def ensureHeader (openOk : Bool) : Option Store → Option Store
  | some ls => some ls
  | none => if openOk then some [headerChars] else none

/-- `writeCSV()`: append one data line; if the open fails, skip the write. -/
def writeCSV (openOk : Bool) (time : Option Tm) (s : SensorVals)
    (store : Option Store) : Option Store :=
  if openOk then some (store.getD [] ++ [dataLine (getTimestamp time) s]) else store

/-- The default hour (12) used when `getLocalTime` fails in `calcSleepInterval`. -/
def fallbackHour : Nat := 12

/-- The hour driving the schedule: `tm_hour` when the clock is valid, else 12. -/
def hourOf : Option Tm → Nat
  | some t => t.hour
  | none => fallbackHour

/-- The spec's night window `[22,24) ∪ [0,5)`. -/
def nightWindow (h : Nat) : Prop := (22 ≤ h ∧ h < 24) ∨ h < 5

/-- `calcSleepInterval()`: night tier first, then the rice-blast risk tier,
else the normal tier. -/
def calcSleepInterval (time : Option Tm) (airTemp humidity : FVal) : ℤ :=
  if 22 ≤ hourOf time ∨ hourOf time < 5 then INTERVAL_NIGHT
  else if fge airTemp (.val BLAST_TEMP_MIN) && fle airTemp (.val BLAST_TEMP_MAX)
      && fgt humidity (.val BLAST_HUMIDITY) then INTERVAL_HIGH_RISK
  else INTERVAL_NORMAL

/-- How a cycle terminates: the only terminator in the source is the
`goToSleep(seconds)` call arming the deep-sleep wake timer. -/
inductive Outcome where
  | goToSleep : ℤ → Outcome
  | halt : Outcome
deriving DecidableEq

/-- What one run of `setup()` produced: the terminating power-controller
call, the resulting CSV file, and the sensor record (if measured). -/
structure CycleResult where
  outcome : Outcome
  store : Option Store
  reading : Option SensorVals

/-- `setup()`: SD init (on failure, sleep for the default interval at once),
then header creation, measurement, CSV append, interval choice, deep sleep. -/
def runSetup (e : Env) : CycleResult :=
  if e.sdOk = true then
    let store1 := ensureHeader e.headerOpenOk e.store
    let s := readSensors e
    let store2 := writeCSV e.appendOpenOk e.time s store1
    { outcome := .goToSleep (calcSleepInterval e.time s.airTemp s.humidity)
      store := store2
      reading := some s }
  else
    { outcome := .goToSleep INTERVAL_NORMAL, store := e.store, reading := none }

/-- The store after one successful cycle (SD present, both opens succeed):
header-ensure then append, as in `setup()`. -/
def cycleStore (e : Env) (st : Option Store) : Option Store :=
  (runSetup { e with sdOk := true, headerOpenOk := true, appendOpenOk := true,
                     store := st }).store

/-- Run one successful cycle per environment in the list, threading the store. -/
def runCycles : List Env → Option Store → Option Store
  | [], st => st
  | e :: es, st => runCycles es (cycleStore e st)

/-- Modelled from the spec: `clamp(x, lo, hi)` as the spec phrases the
calibration transform's clamping. -/
def clampSpec (x lo hi : ℚ) : ℚ := max lo (min hi x)

/-- Parse one CSV data line under the documented column format. -/
def parseLine (cs : List Char) : Option (List Char × ℚ × ℚ × ℚ × ℚ × ℚ) :=
  match splitOnChar ',' cs with
  | [ts, f1, f2, f3, f4, f5] =>
    match parseF1 f1, parseF1 f2, parseF1 f3, parseF1 f4, parseF1 f5 with
    | some a, some h, some p, some w, some l => some (ts, a, h, p, w, l)
    | _, _, _, _, _ => none
  | _ => none

/-- A broken-down time with the given hour (used for concrete witnesses). -/
def tmAt (h : Nat) : Tm := ⟨2026, 10, 11, h, 0, 0⟩

/-- A concrete fully-working environment (used for concrete witnesses). -/
def envW : Env :=
  { sdOk := true, store := none, headerOpenOk := true, appendOpenOk := true,
    time := some (tmAt 14), bmeTemp := .val 24, bmeHum := .val 90,
    bmePressRaw := .val 101300, dsTempRaw := 25, rawAdc := 2048 }

/-- `envW` with the SD card absent (used for concrete witnesses). -/
def envS : Env := { envW with sdOk := false }

/-- `envW` with the DS18B20 probe disconnected (used for concrete witnesses). -/
def envD : Env := { envW with dsTempRaw := -127 }

/-! ## Digit-string lemmas -/

lemma digitCh_toNat (d : Nat) (h : d < 10) : (digitCh d).toNat = 48 + d := by
  interval_cases d <;> decide

lemma isDig_digitCh (d : Nat) (h : d < 10) : isDig (digitCh d) = true := by
  interval_cases d <;> decide

lemma natToChars_lt10 {n : Nat} (h : n < 10) : natToChars n = [digitCh n] := by
  rw [natToChars]
  exact dif_pos h

lemma natToChars_ge10 {n : Nat} (h : ¬n < 10) :
    natToChars n = natToChars (n / 10) ++ [digitCh (n % 10)] := by
  rw [natToChars]
  exact dif_neg h

lemma natToChars_ne_nil (n : Nat) : natToChars n ≠ [] := by
  by_cases h : n < 10
  · rw [natToChars_lt10 h]
    simp
  · rw [natToChars_ge10 h]
    simp

lemma natToChars_all_digit (n : Nat) : ∀ c ∈ natToChars n, isDig c = true := by
  induction n using Nat.strong_induction_on with
  | _ n ih =>
    intro c hc
    by_cases h : n < 10
    · rw [natToChars_lt10 h] at hc
      simp at hc
      subst hc
      exact isDig_digitCh n h
    · rw [natToChars_ge10 h] at hc
      rcases List.mem_append.mp hc with hc | hc
      · exact ih (n / 10) (Nat.div_lt_self (by omega) (by omega)) c hc
      · simp at hc
        subst hc
        exact isDig_digitCh (n % 10) (Nat.mod_lt _ (by omega))

lemma natToChars_head (n : Nat) :
    ∃ c cs, natToChars n = c :: cs ∧ isDig c = true := by
  cases hnc : natToChars n with
  | nil => exact absurd hnc (natToChars_ne_nil n)
  | cons c cs =>
    exact ⟨c, cs, rfl, natToChars_all_digit n c (hnc ▸ List.mem_cons_self c cs)⟩

lemma charsToNatAux_append (acc : Nat) (xs ys : List Char) :
    charsToNatAux acc (xs ++ ys) = charsToNatAux (charsToNatAux acc xs) ys := by
  induction xs generalizing acc with
  | nil => rfl
  | cons c cs ih =>
    show charsToNatAux (acc * 10 + (c.toNat - 48)) (cs ++ ys) =
      charsToNatAux (charsToNatAux (acc * 10 + (c.toNat - 48)) cs) ys
    exact ih _

lemma charsToNatAux_natToChars (n : Nat) :
    ∀ acc, charsToNatAux acc (natToChars n) =
      acc * 10 ^ (natToChars n).length + n := by
  induction n using Nat.strong_induction_on with
  | _ n ih =>
    intro acc
    by_cases h : n < 10
    · rw [natToChars_lt10 h]
      show acc * 10 + ((digitCh n).toNat - 48) = acc * 10 ^ 1 + n
      rw [digitCh_toNat n h, pow_one]
      omega
    · rw [natToChars_ge10 h, charsToNatAux_append,
        ih (n / 10) (Nat.div_lt_self (by omega) (by omega)),
        List.length_append]
      show (acc * 10 ^ (natToChars (n / 10)).length + n / 10) * 10 +
          ((digitCh (n % 10)).toNat - 48) =
        acc * 10 ^ ((natToChars (n / 10)).length + 1) + n
      rw [digitCh_toNat (n % 10) (Nat.mod_lt _ (by omega))]
      have h3 : 48 + n % 10 - 48 = n % 10 := by omega
      rw [h3]
      have h2 : n / 10 * 10 + n % 10 = n := by omega
      calc (acc * 10 ^ (natToChars (n / 10)).length + n / 10) * 10 + (n % 10)
          = acc * (10 ^ (natToChars (n / 10)).length * 10) +
              (n / 10 * 10 + n % 10) := by ring
        _ = acc * (10 ^ (natToChars (n / 10)).length * 10) + n := by rw [h2]
        _ = acc * 10 ^ ((natToChars (n / 10)).length + 1) + n := by rw [pow_succ]

lemma parseDigits_natToChars (n : Nat) : parseDigits (natToChars n) = some n := by
  rw [parseDigits, if_neg (natToChars_ne_nil n),
    if_pos (List.all_eq_true.mpr (natToChars_all_digit n))]
  rw [charsToNatAux_natToChars]
  simp

/-! ## Split lemmas -/

lemma splitOnChar_not_mem (sep : Char) (xs : List Char) (h : sep ∉ xs) :
    splitOnChar sep xs = [xs] := by
  induction xs with
  | nil => rfl
  | cons c cs ih =>
    have hc : ¬c = sep := by
      rintro rfl
      exact h (List.mem_cons_self _ _)
    have hcs := ih (fun hm => h (List.mem_cons_of_mem _ hm))
    simp [splitOnChar, hc, hcs]

lemma splitOnChar_append (sep : Char) (xs ys : List Char) (h : sep ∉ xs) :
    splitOnChar sep (xs ++ sep :: ys) = xs :: splitOnChar sep ys := by
  induction xs with
  | nil => simp [splitOnChar]
  | cons c cs ih =>
    have hc : ¬c = sep := by
      rintro rfl
      exact h (List.mem_cons_self _ _)
    have hcs := ih (fun hm => h (List.mem_cons_of_mem _ hm))
    simp [splitOnChar, hc, hcs]

/-! ## `%.1f` format/parse round-trip -/

lemma dot_not_mem_natToChars (n : Nat) : '.' ∉ natToChars n := fun hm =>
  absurd (natToChars_all_digit n _ hm) (by decide)

lemma comma_not_mem_natToChars (n : Nat) : ',' ∉ natToChars n := fun hm =>
  absurd (natToChars_all_digit n _ hm) (by decide)

lemma parseF1Pos_fmt (m : Nat) :
    parseF1Pos (natToChars (m / 10) ++ '.' :: natToChars (m % 10)) =
      some ((m : ℚ) / 10) := by
  rw [parseF1Pos, splitOnChar_append _ _ _ (dot_not_mem_natToChars _),
    splitOnChar_not_mem _ _ (dot_not_mem_natToChars _)]
  simp only [parseDigits_natToChars]
  rw [natToChars_lt10 (Nat.mod_lt m (by omega))]
  have h2 : m / 10 * 10 + m % 10 = m := by omega
  have hcast : ((m : ℚ)) = ((m / 10 : ℕ) : ℚ) * 10 + ((m % 10 : ℕ) : ℚ) := by
    exact_mod_cast h2.symm
  simp only [List.length_cons, List.length_nil, zero_add, pow_one]
  congr 1
  rw [hcast]
  ring

lemma parseF1_fmtF1 (x : ℚ) : parseF1 (fmtF1 x) = some (roundTo1 x) := by
  rw [fmtF1, roundTo1]
  by_cases hneg : fmtScaled x < 0
  · rw [if_pos hneg, List.singleton_append, parseF1, if_pos rfl, parseF1Pos_fmt]
    have h1 : (((fmtScaled x).natAbs : ℤ)) = -fmtScaled x := by omega
    have h2 : (((fmtScaled x).natAbs : ℕ) : ℚ) = -((fmtScaled x : ℤ) : ℚ) :=
      calc (((fmtScaled x).natAbs : ℕ) : ℚ)
          = (((fmtScaled x).natAbs : ℤ) : ℚ) := (Int.cast_natCast _).symm
        _ = ((-fmtScaled x : ℤ) : ℚ) := by rw [h1]
        _ = -((fmtScaled x : ℤ) : ℚ) := Int.cast_neg _
    simp only [Option.map_some']
    rw [h2]
    congr 1
    ring
  · rw [if_neg hneg, List.nil_append]
    obtain ⟨c, cs, hc, hd⟩ := natToChars_head ((fmtScaled x).natAbs / 10)
    have hcd : ¬c = '-' := by
      rintro rfl
      exact absurd hd (by decide)
    rw [hc, List.cons_append, parseF1, if_neg hcd, ← List.cons_append, ← hc,
      parseF1Pos_fmt]
    have h1 : (((fmtScaled x).natAbs : ℤ)) = fmtScaled x := by omega
    have h2 : (((fmtScaled x).natAbs : ℕ) : ℚ) = ((fmtScaled x : ℤ) : ℚ) :=
      calc (((fmtScaled x).natAbs : ℕ) : ℚ)
          = (((fmtScaled x).natAbs : ℤ) : ℚ) := (Int.cast_natCast _).symm
        _ = ((fmtScaled x : ℤ) : ℚ) := by rw [h1]
    rw [h2]

lemma comma_not_mem_fmtF1 (x : ℚ) : ',' ∉ fmtF1 x := by
  intro hm
  rw [fmtF1] at hm
  rcases List.mem_append.mp hm with h | h
  · by_cases hneg : fmtScaled x < 0
    · rw [if_pos hneg] at h
      simp at h
    · rw [if_neg hneg] at h
      simp at h
  · rcases List.mem_append.mp h with h | h
    · exact comma_not_mem_natToChars _ h
    · rcases List.mem_cons.mp h with h | h
      · exact absurd h (by decide)
      · exact comma_not_mem_natToChars _ h

/-! ## Timestamp lemmas -/

lemma pad2_all_digit (n : Nat) : ∀ c ∈ pad2 n, isDig c = true := by
  intro c hc
  rw [pad2] at hc
  by_cases h : n < 10
  · rw [if_pos h] at hc
    rcases List.mem_cons.mp hc with hc | hc
    · subst hc; decide
    · exact natToChars_all_digit n c hc
  · rw [if_neg h] at hc
    exact natToChars_all_digit n c hc

lemma comma_not_mem_pad2 (n : Nat) : ',' ∉ pad2 n := fun hm =>
  absurd (pad2_all_digit n _ hm) (by decide)

lemma comma_not_mem_fmtTimestamp (t : Tm) : ',' ∉ fmtTimestamp t := by
  intro hm
  rw [fmtTimestamp] at hm
  rcases List.mem_append.mp hm with h | h
  · exact comma_not_mem_natToChars _ h
  rcases List.mem_cons.mp h with h | h
  · exact absurd h (by decide)
  rcases List.mem_append.mp h with h | h
  · exact comma_not_mem_pad2 _ h
  rcases List.mem_cons.mp h with h | h
  · exact absurd h (by decide)
  rcases List.mem_append.mp h with h | h
  · exact comma_not_mem_pad2 _ h
  rcases List.mem_cons.mp h with h | h
  · exact absurd h (by decide)
  rcases List.mem_append.mp h with h | h
  · exact comma_not_mem_pad2 _ h
  rcases List.mem_cons.mp h with h | h
  · exact absurd h (by decide)
  rcases List.mem_append.mp h with h | h
  · exact comma_not_mem_pad2 _ h
  rcases List.mem_cons.mp h with h | h
  · exact absurd h (by decide)
  rcases List.mem_append.mp h with h | h
  · exact comma_not_mem_pad2 _ h
  · exact absurd h (by decide)

lemma comma_not_mem_getTimestamp (t : Option Tm) : ',' ∉ getTimestamp t := by
  cases t with
  | none => decide
  | some t => exact comma_not_mem_fmtTimestamp t

lemma getTimestamp_head (t : Option Tm) :
    ∃ c cs, getTimestamp t = c :: cs ∧ isDig c = true := by
  cases t with
  | none => exact ⟨'1', _, rfl, by decide⟩
  | some t =>
    obtain ⟨c, cs, hc, hd⟩ := natToChars_head t.year
    exact ⟨c, cs ++ '-' ::
        (pad2 t.month ++ '-' ::
          (pad2 t.day ++ 'T' ::
            (pad2 t.hour ++ ':' ::
              (pad2 t.minute ++ ':' :: (pad2 t.sec ++ tsSuffix))))),
      by rw [getTimestamp, fmtTimestamp, hc, List.cons_append], hd⟩

/-! ## Header and store lemmas -/

lemma dataLine_ne_header (t : Option Tm) (s : SensorVals) :
    dataLine (getTimestamp t) s ≠ headerChars := by
  obtain ⟨c, cs, hc, hd⟩ := getTimestamp_head t
  intro he
  rw [dataLine, hc, List.cons_append] at he
  have hct : c = 't' := by
    have h2 := congrArg List.head? he
    simpa [headerChars] using h2
  rw [hct] at hd
  exact absurd hd (by decide)

lemma cycleStore_some (e : Env) (ls : Store) :
    cycleStore e (some ls) =
      some (ls ++ [dataLine (getTimestamp e.time) (readSensors e)]) := rfl

lemma cycleStore_none (e : Env) :
    cycleStore e none =
      some (headerChars :: [dataLine (getTimestamp e.time) (readSensors e)]) := rfl

lemma runCycles_some (es : List Env) :
    ∀ ls : Store, runCycles es (some ls) =
      some (ls ++ es.map (fun e => dataLine (getTimestamp e.time) (readSensors e))) := by
  induction es with
  | nil => intro ls; simp [runCycles]
  | cons e es ih =>
    intro ls
    rw [runCycles, cycleStore_some, ih]
    simp

/-! ## Scheduler lemmas -/

lemma calcSleepInterval_pos (t : Option Tm) (a h : FVal) :
    0 < calcSleepInterval t a h := by
  rw [calcSleepInterval]
  split
  · decide
  · split <;> decide

lemma calc_day (t : Tm) (a hum : ℚ) (h1 : 5 ≤ t.hour) (h2 : t.hour < 22) :
    calcSleepInterval (some t) (.val a) (.val hum) =
      if BLAST_TEMP_MIN ≤ a ∧ a ≤ BLAST_TEMP_MAX ∧ BLAST_HUMIDITY < hum
      then INTERVAL_HIGH_RISK else INTERVAL_NORMAL := by
  have hnight : ¬(22 ≤ hourOf (some t) ∨ hourOf (some t) < 5) := by
    simp only [hourOf]
    omega
  rw [calcSleepInterval, if_neg hnight]
  by_cases hr : BLAST_TEMP_MIN ≤ a ∧ a ≤ BLAST_TEMP_MAX ∧ BLAST_HUMIDITY < hum
  · rw [if_pos hr, if_pos]
    simp only [fge, fle, fgt, Bool.and_eq_true, decide_eq_true_eq]
    exact ⟨⟨hr.1, hr.2.1⟩, hr.2.2⟩
  · rw [if_neg hr, if_neg]
    simp only [fge, fle, fgt, Bool.and_eq_true, decide_eq_true_eq]
    intro hcon
    exact hr ⟨hcon.1.1, hcon.1.2, hcon.2⟩

/-! ## Claim theorems -/

/-- C1: every code path through one cycle — including the SD-init-failure
branch and the append-failure branch — terminates in a `goToSleep` call with
a strictly positive interval, and the storage-unavailable path sleeps for
the pre-defined default interval `INTERVAL_NORMAL`. -/
theorem every_cycle_sleeps (e : Env) :
    ∃ s : ℤ, (runSetup e).outcome = Outcome.goToSleep s ∧ 0 < s ∧
      (e.sdOk = false → s = INTERVAL_NORMAL) := by
  cases hsd : e.sdOk with
  | false =>
    refine ⟨INTERVAL_NORMAL, ?_, by decide, fun _ => rfl⟩
    rw [runSetup, if_neg (by simp [hsd])]
  | true =>
    refine ⟨calcSleepInterval e.time (readSensors e).airTemp (readSensors e).humidity,
      ?_, calcSleepInterval_pos _ _ _, ?_⟩
    · rw [runSetup, if_pos hsd]
    · intro hf
      exact Bool.noConfusion hf

theorem every_cycle_sleeps_witness :
    ∃ s : ℤ, (runSetup envS).outcome = Outcome.goToSleep s ∧ 0 < s ∧
      (envS.sdOk = false → s = INTERVAL_NORMAL) :=
  every_cycle_sleeps envS

/-- C2: for every hour in the night window `[22,24) ∪ [0,5)` the scheduler
returns `INTERVAL_NIGHT`, whatever the air temperature and humidity are
(the night rule is checked before the risk rule). -/
theorem night_precedence (t : Tm) (a h : FVal)
    (hn : (22 ≤ t.hour ∧ t.hour < 24) ∨ t.hour < 5) :
    calcSleepInterval (some t) a h = INTERVAL_NIGHT := by
  rw [calcSleepInterval, if_pos]
  rcases hn with ⟨h1, _⟩ | h1
  · exact Or.inl h1
  · exact Or.inr h1

theorem night_precedence_witness :
    calcSleepInterval (some (tmAt 23)) (.val 24) (.val 90) = INTERVAL_NIGHT :=
  night_precedence (tmAt 23) (.val 24) (.val 90) (by decide)

/-- C3: outside the night window the scheduler returns `INTERVAL_HIGH_RISK`
exactly when the air temperature is inside the rice-blast band and the
humidity exceeds the threshold, and `INTERVAL_NORMAL` otherwise; in
particular `(hour 14, 24 °C, 90 %)` is high-risk and `(hour 14, 24 °C, 50 %)`
is normal. -/
theorem day_risk_exact (t : Tm) (a hum : ℚ) (h1 : 5 ≤ t.hour) (h2 : t.hour < 22) :
    (calcSleepInterval (some t) (.val a) (.val hum) =
      if BLAST_TEMP_MIN ≤ a ∧ a ≤ BLAST_TEMP_MAX ∧ BLAST_HUMIDITY < hum
      then INTERVAL_HIGH_RISK else INTERVAL_NORMAL) ∧
    calcSleepInterval (some (tmAt 14)) (.val 24) (.val 90) = INTERVAL_HIGH_RISK ∧
    calcSleepInterval (some (tmAt 14)) (.val 24) (.val 50) = INTERVAL_NORMAL :=
  ⟨calc_day t a hum h1 h2, by decide, by decide⟩

theorem day_risk_exact_witness :
    (calcSleepInterval (some (tmAt 14)) (.val 24) (.val 90) =
      if BLAST_TEMP_MIN ≤ (24 : ℚ) ∧ (24 : ℚ) ≤ BLAST_TEMP_MAX ∧ BLAST_HUMIDITY < (90 : ℚ)
      then INTERVAL_HIGH_RISK else INTERVAL_NORMAL) ∧
    calcSleepInterval (some (tmAt 14)) (.val 24) (.val 90) = INTERVAL_HIGH_RISK ∧
    calcSleepInterval (some (tmAt 14)) (.val 24) (.val 50) = INTERVAL_NORMAL :=
  day_risk_exact (tmAt 14) 24 90 (by decide) (by decide)

/-- C4: a NaN air temperature or humidity never satisfies the risk
predicate: outside the night window the scheduler then returns
`INTERVAL_NORMAL`, never `INTERVAL_HIGH_RISK`; in particular
`(hour 14, NaN, 90 %)` is normal. -/
theorem nan_falls_to_normal (t : Tm) (a h : FVal) (h1 : 5 ≤ t.hour)
    (h2 : t.hour < 22) (hnan : a = FVal.nan ∨ h = FVal.nan) :
    calcSleepInterval (some t) a h = INTERVAL_NORMAL ∧
    calcSleepInterval (some t) a h ≠ INTERVAL_HIGH_RISK ∧
    calcSleepInterval (some (tmAt 14)) FVal.nan (.val 90) = INTERVAL_NORMAL := by
  have hnight : ¬(22 ≤ hourOf (some t) ∨ hourOf (some t) < 5) := by
    simp only [hourOf]
    omega
  have hbool : (fge a (.val BLAST_TEMP_MIN) && fle a (.val BLAST_TEMP_MAX)
      && fgt h (.val BLAST_HUMIDITY)) = false := by
    rcases hnan with rfl | rfl
    · simp [fge]
    · simp [fgt]
  have hmain : calcSleepInterval (some t) a h = INTERVAL_NORMAL := by
    rw [calcSleepInterval, if_neg hnight, hbool]
    simp
  exact ⟨hmain, by rw [hmain]; decide, by decide⟩

theorem nan_falls_to_normal_witness :
    calcSleepInterval (some (tmAt 14)) FVal.nan (.val 90) = INTERVAL_NORMAL ∧
    calcSleepInterval (some (tmAt 14)) FVal.nan (.val 90) ≠ INTERVAL_HIGH_RISK ∧
    calcSleepInterval (some (tmAt 14)) FVal.nan (.val 90) = INTERVAL_NORMAL :=
  nan_falls_to_normal (tmAt 14) FVal.nan (.val 90) (by decide) (by decide) (Or.inl rfl)

/-- C5 (amended): starting from a fresh store (no file), running N ≥ 1
cycles — each running the header-ensure step and then appending one
record — leaves exactly one header line followed by N data lines; repeated
header-ensure invocations never duplicate the header.  (At N = 0 nothing
runs, so the store still has no header line; see the counterexample.) -/
theorem header_written_once (es : List Env) (hne : es ≠ []) :
    ∃ ds : Store, runCycles es none = some (headerChars :: ds) ∧
      ds.length = es.length ∧ headerChars ∉ ds := by
  cases es with
  | nil => exact absurd rfl hne
  | cons e es =>
    refine ⟨dataLine (getTimestamp e.time) (readSensors e) ::
      es.map (fun e => dataLine (getTimestamp e.time) (readSensors e)), ?_, ?_, ?_⟩
    · rw [runCycles, cycleStore_none, runCycles_some]
      rfl
    · simp
    · intro hm
      rcases List.mem_cons.mp hm with h | h
      · exact dataLine_ne_header e.time (readSensors e) h.symm
      · obtain ⟨e2, _, he2⟩ := List.mem_map.mp h
        exact dataLine_ne_header e2.time (readSensors e2) he2

/-- C5: the claim as frozen quantifies over every N ≥ 0, but after zero
cycles the fresh store holds no header line at all. -/
theorem header_written_once_cex :
    ¬∃ ds : Store, runCycles ([] : List Env) none = some (headerChars :: ds) := by
  rintro ⟨ds, hds⟩
  rw [runCycles] at hds
  exact Option.noConfusion hds

theorem header_written_once_witness :
    ∃ ds : Store, runCycles [envW] none = some (headerChars :: ds) ∧
      ds.length = ([envW] : List Env).length ∧ headerChars ∉ ds :=
  header_written_once [envW] (List.cons_ne_nil _ _)

/-- C6: for every raw ADC count in [0, 4095] the calibration transform
equals `clamp((rawADC*3.3/4095 − 0.5) * 20 / (3.3 − 0.5), 0, 20)`, so the
result always lies in [0, 20] and is never the −999 sentinel. -/
theorem adc_level_clamped (r : ℤ) (h0 : 0 ≤ r) (h1 : r ≤ 4095) :
    adcToWaterLevel r =
      clampSpec (((r : ℚ) * (33 / 10) / 4095 - 1 / 2) * 20 / (33 / 10 - 1 / 2)) 0 20 ∧
    0 ≤ adcToWaterLevel r ∧ adcToWaterLevel r ≤ 20 ∧ adcToWaterLevel r ≠ -999 := by
  have he : adcToWaterLevel r =
      clampSpec (((r : ℚ) * (33 / 10) / 4095 - 1 / 2) * 20 / (33 / 10 - 1 / 2)) 0 20 := by
    rw [adcToWaterLevel, clampSpec, max_def, min_def]
    split_ifs <;> linarith
  have hlo : (0 : ℚ) ≤
      clampSpec (((r : ℚ) * (33 / 10) / 4095 - 1 / 2) * 20 / (33 / 10 - 1 / 2)) 0 20 :=
    le_max_left _ _
  have hhi : clampSpec (((r : ℚ) * (33 / 10) / 4095 - 1 / 2) * 20 / (33 / 10 - 1 / 2)) 0 20
      ≤ 20 := max_le (by norm_num) (min_le_left _ _)
  refine ⟨he, he ▸ hlo, he ▸ hhi, ?_⟩
  rw [he]
  intro hcon
  rw [hcon] at hlo
  norm_num at hlo

theorem adc_level_clamped_witness :
    adcToWaterLevel 0 =
      clampSpec ((((0 : ℤ) : ℚ) * (33 / 10) / 4095 - 1 / 2) * 20 / (33 / 10 - 1 / 2)) 0 20 ∧
    0 ≤ adcToWaterLevel 0 ∧ adcToWaterLevel 0 ≤ 20 ∧ adcToWaterLevel 0 ≠ -999 :=
  adc_level_clamped 0 (by decide) (by decide)

/-- C7: when no valid time is available, the record's timestamp is the fixed
fallback string, the scheduler's fallback hour (12) is outside the night
window, and the clock-unavailable case can never select the night tier. -/
theorem clock_fallback_is_safe :
    getTimestamp none = fallbackTimestamp ∧
    ¬nightWindow fallbackHour ∧
    ∀ a h : FVal, calcSleepInterval none a h ≠ INTERVAL_NIGHT := by
  refine ⟨rfl, by rw [nightWindow, fallbackHour]; omega, fun a h => ?_⟩
  rw [calcSleepInterval, if_neg (by simp only [hourOf, fallbackHour]; omega)]
  split <;> decide

theorem clock_fallback_is_safe_witness :
    calcSleepInterval none FVal.nan FVal.nan ≠ INTERVAL_NIGHT :=
  clock_fallback_is_safe.2.2 FVal.nan FVal.nan

/-- C8: when the DS18B20 probe reports its disconnected value, the recorded
water temperature is the −999 sentinel (not the driver's raw value), and
the cycle still reaches the persistence step with that sentinel record. -/
theorem probe_disconnect_sentinel (e : Env)
    (hd : e.dsTempRaw = DEVICE_DISCONNECTED_C) (hsd : e.sdOk = true) :
    (readSensors e).waterTemp = -999 ∧
    (readSensors e).waterTemp ≠ DEVICE_DISCONNECTED_C ∧
    (runSetup e).reading = some (readSensors e) ∧
    (runSetup e).store =
      writeCSV e.appendOpenOk e.time (readSensors e)
        (ensureHeader e.headerOpenOk e.store) := by
  have hwt : (readSensors e).waterTemp = -999 := by
    simp [readSensors, hd]
  refine ⟨hwt, ?_, ?_, ?_⟩
  · rw [hwt]
    decide
  · rw [runSetup, if_pos hsd]
  · rw [runSetup, if_pos hsd]

theorem probe_disconnect_sentinel_witness :
    (readSensors envD).waterTemp = -999 ∧
    (readSensors envD).waterTemp ≠ DEVICE_DISCONNECTED_C ∧
    (runSetup envD).reading = some (readSensors envD) ∧
    (runSetup envD).store =
      writeCSV envD.appendOpenOk envD.time (readSensors envD)
        (ensureHeader envD.headerOpenOk envD.store) :=
  probe_disconnect_sentinel envD (by decide) rfl

/-- C9: round-trip — for a record with known finite field values, the data
line written by the persistence step, parsed back under the documented
comma-separated column format, reproduces the timestamp exactly and each
numeric field rounded to one decimal place. -/
theorem csv_round_trip (t : Option Tm) (a h p wt wl : ℚ) :
    parseLine (dataLine (getTimestamp t)
      { airTemp := .val a, humidity := .val h, pressure := .val p,
        waterTemp := wt, waterLevel := wl }) =
      some (getTimestamp t, roundTo1 a, roundTo1 h, roundTo1 p,
        roundTo1 wt, roundTo1 wl) := by
  have hsplit : splitOnChar ',' (dataLine (getTimestamp t)
      { airTemp := .val a, humidity := .val h, pressure := .val p,
        waterTemp := wt, waterLevel := wl }) =
      [getTimestamp t, fmtF1 a, fmtF1 h, fmtF1 p, fmtF1 wt, fmtF1 wl] := by
    rw [dataLine]
    simp only [fmtF1V]
    rw [splitOnChar_append _ _ _ (comma_not_mem_getTimestamp t),
      splitOnChar_append _ _ _ (comma_not_mem_fmtF1 a),
      splitOnChar_append _ _ _ (comma_not_mem_fmtF1 h),
      splitOnChar_append _ _ _ (comma_not_mem_fmtF1 p),
      splitOnChar_append _ _ _ (comma_not_mem_fmtF1 wt),
      splitOnChar_not_mem _ _ (comma_not_mem_fmtF1 wl)]
  rw [parseLine, hsplit]
  simp only [parseF1_fmtF1]

/-- C10: the risk band is inclusive at 20 °C and 28 °C while the humidity
threshold is strict: humidity exactly 85 % never selects the high-risk
tier, for any air temperature. -/
theorem band_inclusive_humidity_strict (t : Tm) (h1 : 5 ≤ t.hour) (h2 : t.hour < 22) :
    (∀ hum : ℚ, BLAST_HUMIDITY < hum →
      calcSleepInterval (some t) (.val BLAST_TEMP_MIN) (.val hum) = INTERVAL_HIGH_RISK ∧
      calcSleepInterval (some t) (.val BLAST_TEMP_MAX) (.val hum) = INTERVAL_HIGH_RISK) ∧
    (∀ a : ℚ, calcSleepInterval (some t) (.val a) (.val BLAST_HUMIDITY) = INTERVAL_NORMAL ∧
      calcSleepInterval (some t) (.val a) (.val BLAST_HUMIDITY) ≠ INTERVAL_HIGH_RISK) := by
  constructor
  · intro hum hh
    constructor
    · rw [calc_day t _ _ h1 h2, if_pos ⟨le_refl _, by decide, hh⟩]
    · rw [calc_day t _ _ h1 h2, if_pos ⟨by decide, le_refl _, hh⟩]
  · intro a
    have hn : calcSleepInterval (some t) (.val a) (.val BLAST_HUMIDITY) = INTERVAL_NORMAL := by
      rw [calc_day t _ _ h1 h2, if_neg]
      rintro ⟨_, _, hcon⟩
      exact lt_irrefl _ hcon
    exact ⟨hn, by rw [hn]; decide⟩

theorem band_inclusive_humidity_strict_witness :
    (∀ hum : ℚ, BLAST_HUMIDITY < hum →
      calcSleepInterval (some (tmAt 14)) (.val BLAST_TEMP_MIN) (.val hum) = INTERVAL_HIGH_RISK ∧
      calcSleepInterval (some (tmAt 14)) (.val BLAST_TEMP_MAX) (.val hum) = INTERVAL_HIGH_RISK) ∧
    (∀ a : ℚ, calcSleepInterval (some (tmAt 14)) (.val a) (.val BLAST_HUMIDITY) = INTERVAL_NORMAL ∧
      calcSleepInterval (some (tmAt 14)) (.val a) (.val BLAST_HUMIDITY) ≠ INTERVAL_HIGH_RISK) :=
  band_inclusive_humidity_strict (tmAt 14) (by decide) (by decide)

end Tanbo
